import Mathlib

/-!
Verification development for the `gemini_client` package.

Shallow embedding of the pure logic of the repository's source files:
- `gemini_client/utils.py` (`load_cookies`, `upload_file`)
- `gemini_client/enums.py` (`Headers`, `Model`, `Model.from_name`)
- `gemini_client/images.py` (`Image.save` filename handling, `GeneratedImage`)
- the session engine of `core.py` is not present in the source tree; its
  auth-retry behaviour is modelled from the specification (section 4.5).

Python strings are embedded as `String` (or `List Char` where index
arithmetic matters), dictionaries whose iteration order matters as
association lists, and code that raises as `Except String`.
-/

/-! ### Cookie loading (`gemini_client/utils.py`, `load_cookies`) -/

/-- Embeds Python `str.upper` (character-wise upper-casing; `Char.toUpper`
agrees with Python on the ASCII cookie names involved). -/
def pyUpper (s : String) : String :=
  ⟨s.data.map Char.toUpper⟩

/-- Embeds the generator-filter condition `item['name'].upper() == target`
used by `load_cookies`. -/
def cookieMatch (target : String) (item : String × String) : Bool :=
  pyUpper item.1 == target

/-- Embeds `next((item['value'] for item in cookies if item['name'].upper() == target), None)`:
the value of the first entry whose upper-cased name equals `target`, if any. -/
def findCookieValue (target : String) (cookies : List (String × String)) : Option String :=
  (cookies.find? (cookieMatch target)).map Prod.snd

/-- Message produced when a required cookie is missing or empty: the
`StopIteration` text re-wrapped by the `except StopIteration` handler. -/
def missingCookiesMsg : String :=
  "Required cookies (__Secure-1PSID or __Secure-1PSIDTS) not found. Check the cookie file format and content."

/-- Embeds the body of `load_cookies` after a successful `json.load`:
`session_auth1`/`session_auth2` are the first case-insensitive matches for
the two required names; `if not session_auth1 or not session_auth2` raises
when either is `None` (here `none`) or falsy (the empty string); otherwise
the pair is returned. -/
def load_cookies (cookies : List (String × String)) : Except String (String × String) :=
  match findCookieValue "__SECURE-1PSID" cookies, findCookieValue "__SECURE-1PSIDTS" cookies with
  | some v1, some v2 =>
      if v1 = "" ∨ v2 = "" then Except.error missingCookiesMsg
      else Except.ok (v1, v2)
  | _, _ => Except.error missingCookiesMsg

/-- Possible outcomes of opening and JSON-parsing the cookie file. -/
inductive CookieFile where
  | absent : CookieFile
  | malformed : CookieFile
  | parsed : List (String × String) → CookieFile

/-- Embeds `load_cookies` including its exception handlers for the file
system and JSON layers: `FileNotFoundError` and `json.JSONDecodeError`
are re-raised as the corresponding descriptive messages. -/
def load_cookies_from_file (cookie_path : String) : CookieFile → Except String (String × String)
  | CookieFile.absent => Except.error ("Cookie file not found at path: " ++ cookie_path)
  | CookieFile.malformed => Except.error "Invalid JSON format in the cookie file."
  | CookieFile.parsed cookies => load_cookies cookies

/-! ### Helper lemmas about `List.find?` -/

theorem find?_eq_of_unique {α : Type} (p : α → Bool) {l : List α} {x : α}
    (hx : x ∈ l) (hpx : p x = true) (huniq : ∀ y ∈ l, p y = true → y = x) :
    l.find? p = some x := by
  induction l with
  | nil => cases hx
  | cons a t ih =>
    cases hpa : p a with
    | true =>
      have ha : a = x := huniq a (List.mem_cons_self a t) hpa
      rw [List.find?_cons_of_pos _ hpa, ha]
    | false =>
      have hxt : x ∈ t := by
        rcases List.mem_cons.mp hx with h | h
        · exact absurd hpx (by simp [h, hpa])
        · exact h
      rw [List.find?_cons_of_neg _ (by simp [hpa])]
      exact ih hxt (fun y hy hpy => huniq y (List.mem_cons_of_mem a hy) hpy)

theorem find?_perm_of_unique {α : Type} (p : α → Bool) {l l' : List α}
    (hperm : l.Perm l')
    (huniq : ∀ x ∈ l, p x = true → ∀ y ∈ l, p y = true → y = x) :
    l.find? p = l'.find? p := by
  cases hfind : l.find? p with
  | some a =>
    have hpa : p a = true := List.find?_some hfind
    have hmem : a ∈ l := List.mem_of_find?_eq_some hfind
    have : l'.find? p = some a := by
      refine find?_eq_of_unique p (hperm.mem_iff.mp hmem) hpa ?_
      intro y hy hpy
      exact huniq a hmem hpa y (hperm.mem_iff.mpr hy) hpy
    rw [this]
  | none =>
    have h1 : ∀ x ∈ l, ¬ p x = true := List.find?_eq_none.mp hfind
    have : l'.find? p = none := by
      refine List.find?_eq_none.mpr ?_
      intro x hx
      exact h1 x (hperm.mem_iff.mpr hx)
    rw [this]

theorem find?_eq_head?_filter {α : Type} (p : α → Bool) (l : List α) :
    l.find? p = (l.filter p).head? := by
  induction l with
  | nil => rfl
  | cons a t ih =>
    cases hpa : p a with
    | true => simp [List.find?_cons_of_pos _ hpa, List.filter_cons_of_pos hpa]
    | false =>
      rw [List.find?_cons_of_neg _ (by simp [hpa] : ¬ p a = true),
        List.filter_cons_of_neg (by simp [hpa] : ¬ p a = true)]
      exact ih

theorem load_cookies_ok_iff (cookies : List (String × String)) (a b : String) :
    load_cookies cookies = Except.ok (a, b) ↔
      findCookieValue "__SECURE-1PSID" cookies = some a ∧ a ≠ "" ∧
      findCookieValue "__SECURE-1PSIDTS" cookies = some b ∧ b ≠ "" := by
  unfold load_cookies
  constructor
  · intro h
    split at h
    · rename_i v1 v2 heq1 heq2
      split at h
      · exact absurd h (by simp)
      · rename_i hc
        push_neg at hc
        have hpair : (v1, v2) = (a, b) := Except.ok.inj h
        have ha : v1 = a := congrArg Prod.fst hpair
        have hb : v2 = b := congrArg Prod.snd hpair
        subst ha; subst hb
        exact ⟨heq1, hc.1, heq2, hc.2⟩
    · exact absurd h (by simp)
  · rintro ⟨h1, hne1, h2, hne2⟩
    rw [h1, h2]
    simp [hne1, hne2]

/-- C1 counterexample: the list below contains a (case-variant) entry named
`__Secure-1PSID` with the non-empty value `"A"` and an entry named
`__Secure-1PSIDTS` with the non-empty value `"B"`, yet `load_cookies`
raises instead of returning the pair, because the *first* case-insensitive
match for `__Secure-1PSID` has an empty value. -/
theorem c1_counterexample :
    ("__secure-1psid", "A") ∈
      ([("__Secure-1PSID", ""), ("__secure-1psid", "A"), ("__Secure-1PSIDTS", "B")] :
        List (String × String)) ∧
    ("__Secure-1PSIDTS", "B") ∈
      ([("__Secure-1PSID", ""), ("__secure-1psid", "A"), ("__Secure-1PSIDTS", "B")] :
        List (String × String)) ∧
    pyUpper "__secure-1psid" = pyUpper "__Secure-1PSID" ∧
    "A" ≠ "" ∧ "B" ≠ "" ∧
    load_cookies [("__Secure-1PSID", ""), ("__secure-1psid", "A"), ("__Secure-1PSIDTS", "B")] =
      Except.error missingCookiesMsg :=
  ⟨by simp, by simp, rfl, by simp, by simp, rfl⟩

/-- C1 (amended): if the *first* case-insensitive match for each required
cookie name has a non-empty value, `load_cookies` returns exactly that pair
of values; and whenever each required name matches at most one entry, the
result is invariant under permutation of the list (hence independent of
list order and of extraneous entries). -/
theorem c1_load_cookies_pair :
    (∀ (cookies : List (String × String)) (v1 v2 : String),
      findCookieValue "__SECURE-1PSID" cookies = some v1 → v1 ≠ "" →
      findCookieValue "__SECURE-1PSIDTS" cookies = some v2 → v2 ≠ "" →
      load_cookies cookies = Except.ok (v1, v2)) ∧
    (∀ (cookies cookies' : List (String × String)),
      cookies.Perm cookies' →
      (∀ x ∈ cookies, cookieMatch "__SECURE-1PSID" x = true →
        ∀ y ∈ cookies, cookieMatch "__SECURE-1PSID" y = true → y = x) →
      (∀ x ∈ cookies, cookieMatch "__SECURE-1PSIDTS" x = true →
        ∀ y ∈ cookies, cookieMatch "__SECURE-1PSIDTS" y = true → y = x) →
      load_cookies cookies = load_cookies cookies') := by
  constructor
  · intro cookies v1 v2 h1 hne1 h2 hne2
    exact (load_cookies_ok_iff cookies v1 v2).mpr ⟨h1, hne1, h2, hne2⟩
  · intro cookies cookies' hperm h1 h2
    unfold load_cookies findCookieValue
    rw [find?_perm_of_unique (cookieMatch "__SECURE-1PSID") hperm
        (fun x hx hpx y hy hpy => h1 x hx hpx y hy hpy),
      find?_perm_of_unique (cookieMatch "__SECURE-1PSIDTS") hperm
        (fun x hx hpx y hy hpy => h2 x hx hpx y hy hpy)]

/-- Witness for C1 (amended) at a concrete three-entry list. -/
theorem c1_load_cookies_pair_witness :
    load_cookies [("__Secure-1PSID", "A"), ("extra", "z"), ("__Secure-1PSIDTS", "B")] =
      Except.ok ("A", "B") :=
  c1_load_cookies_pair.1 _ "A" "B" rfl (by simp) rfl (by simp)

/-- C3: `load_cookies` never returns a pair with a missing or empty
credential, and each failure mode (absent file, malformed JSON, required
cookie missing or empty on its first match) produces the corresponding
descriptive error message. -/
theorem c3_no_partial_credentials :
    (∀ (cookie_path : String) (f : CookieFile) (a b : String),
      load_cookies_from_file cookie_path f = Except.ok (a, b) → a ≠ "" ∧ b ≠ "") ∧
    (∀ cookie_path : String, load_cookies_from_file cookie_path CookieFile.absent =
      Except.error ("Cookie file not found at path: " ++ cookie_path)) ∧
    (∀ cookie_path : String, load_cookies_from_file cookie_path CookieFile.malformed =
      Except.error "Invalid JSON format in the cookie file.") ∧
    (∀ (cookie_path : String) (cookies : List (String × String)),
      (findCookieValue "__SECURE-1PSID" cookies).getD "" = "" ∨
        (findCookieValue "__SECURE-1PSIDTS" cookies).getD "" = "" →
      load_cookies_from_file cookie_path (CookieFile.parsed cookies) =
        Except.error missingCookiesMsg) := by
  refine ⟨?_, fun _ => rfl, fun _ => rfl, ?_⟩
  · intro cookie_path f a b h
    cases f with
    | absent => simp [load_cookies_from_file] at h
    | malformed => simp [load_cookies_from_file] at h
    | parsed cookies =>
      have := (load_cookies_ok_iff cookies a b).mp h
      exact ⟨this.2.1, this.2.2.2⟩
  · intro cookie_path cookies hfail
    show load_cookies cookies = Except.error missingCookiesMsg
    unfold load_cookies
    cases h1 : findCookieValue "__SECURE-1PSID" cookies with
    | none => rfl
    | some v1 =>
      cases h2 : findCookieValue "__SECURE-1PSIDTS" cookies with
      | none => rfl
      | some v2 =>
        rw [h1, h2] at hfail
        simp only [Option.getD_some] at hfail
        show (if v1 = "" ∨ v2 = "" then Except.error missingCookiesMsg
          else Except.ok (v1, v2)) = Except.error missingCookiesMsg
        rw [if_pos hfail]

/-- Witness for C3 at concrete inputs: a parsed list missing both required
cookies fails with the missing-cookies message, and no non-empty pair has
empty components. -/
theorem c3_no_partial_credentials_witness :
    load_cookies_from_file "cookies.json" (CookieFile.parsed [("foo", "bar")]) =
      Except.error missingCookiesMsg :=
  c3_no_partial_credentials.2.2.2 "cookies.json" [("foo", "bar")] (Or.inl rfl)

/-- C9: whenever `load_cookies` returns a pair, each component is the value
of the earliest entry (in list order) whose name case-insensitively equals
the corresponding required cookie name; the embedding is a pure function of
the parsed list, so the result is a deterministic function of the file
content. -/
theorem c9_earliest_entry_wins :
    ∀ (cookies : List (String × String)) (a b : String),
      load_cookies cookies = Except.ok (a, b) →
      ((cookies.filter (cookieMatch "__SECURE-1PSID")).head?).map Prod.snd = some a ∧
      ((cookies.filter (cookieMatch "__SECURE-1PSIDTS")).head?).map Prod.snd = some b := by
  intro cookies a b h
  obtain ⟨h1, _, h2, _⟩ := (load_cookies_ok_iff cookies a b).mp h
  unfold findCookieValue at h1 h2
  rw [find?_eq_head?_filter] at h1 h2
  exact ⟨h1, h2⟩

/-- Witness for C9 at a list with duplicate case-variant entries: the
earliest `__Secure-1PSID`-named entry (value `"A"`) and the earliest
`__Secure-1PSIDTS`-named entry (value `"B"`) win. -/
theorem c9_earliest_entry_wins_witness :
    ((([("__Secure-1PSID", "A"), ("__SECURE-1psid", "C"), ("__Secure-1PSIDTS", "B"),
        ("__secure-1psidts", "D")] :
      List (String × String)).filter (cookieMatch "__SECURE-1PSID")).head?).map Prod.snd =
        some "A" ∧
    ((([("__Secure-1PSID", "A"), ("__SECURE-1psid", "C"), ("__Secure-1PSIDTS", "B"),
        ("__secure-1psidts", "D")] :
      List (String × String)).filter (cookieMatch "__SECURE-1PSIDTS")).head?).map Prod.snd =
        some "B" :=
  c9_earliest_entry_wins _ "A" "B" rfl

/-! ### Model configurations (`gemini_client/enums.py`, `Model`) -/

/-- Embeds one member of the `Model` enum: `model_name`, `model_header`
(an association list, since the Python dicts here have a single key),
and the `advanced_only` flag. -/
structure ModelConfig where
  model_name : String
  model_header : List (String × String)
  advanced_only : Bool
deriving DecidableEq

def Model.UNSPECIFIED : ModelConfig :=
  ⟨"unspecified", [], false⟩

def Model.G_2_0_FLASH : ModelConfig :=
  ⟨"gemini-2.0-flash",
   [("x-goog-ext-525001261-jspb", "[1,null,null,null,\"f299729663a2343f\"]")], false⟩

def Model.G_2_0_FLASH_THINKING : ModelConfig :=
  ⟨"gemini-2.0-flash-thinking",
   [("x-goog-ext-525001261-jspb", "[null,null,null,null,\"7ca48d02d802f20a\"]")], false⟩

def Model.G_2_5_FLASH : ModelConfig :=
  ⟨"gemini-2.5-flash",
   [("x-goog-ext-525001261-jspb", "[1,null,null,null,\"35609594dbe934d8\"]")], false⟩

def Model.G_2_5_PRO : ModelConfig :=
  ⟨"gemini-2.5-pro",
   [("x-goog-ext-525001261-jspb", "[1,null,null,null,\"2525e3954d185b3c\"]")], false⟩

def Model.G_2_0_EXP_ADVANCED : ModelConfig :=
  ⟨"gemini-2.0-exp-advanced",
   [("x-goog-ext-525001261-jspb", "[null,null,null,null,\"b1e46a6037e6aa9f\"]")], true⟩

def Model.G_2_5_EXP_ADVANCED : ModelConfig :=
  ⟨"gemini-2.5-exp-advanced",
   [("x-goog-ext-525001261-jspb", "[null,null,null,null,\"203e6bb81620bcfe\"]")], true⟩

/-- Members of the `Model` enum in Python definition order (the order
`for model in cls` iterates in). -/
def Model.members : List ModelConfig :=
  [Model.UNSPECIFIED, Model.G_2_0_FLASH, Model.G_2_0_FLASH_THINKING, Model.G_2_5_FLASH,
   Model.G_2_5_PRO, Model.G_2_0_EXP_ADVANCED, Model.G_2_5_EXP_ADVANCED]

/-- Message of the `ValueError` raised by `Model.from_name` on an unknown
name. -/
def unknownModelMsg (name : String) : String :=
  "Unknown model name: " ++ name ++ ". Available models: " ++
    String.intercalate ", " (Model.members.map ModelConfig.model_name)

/-- Embeds `Model.from_name`: the `for model in cls` loop returns the first
member whose `model_name` equals `name`, and raises `ValueError` when the
loop finds none. -/
def Model.from_name (name : String) : Except String ModelConfig :=
  match Model.members.find? (fun model => model.model_name == name) with
  | some model => Except.ok model
  | none => Except.error (unknownModelMsg name)

/-- C4: the model configurations have pairwise distinct canonical names;
`Model.from_name` maps each member's name back to that (unique) member; and
on a name matching no member it raises `ValueError` (the unknown-model
message) rather than returning any default. -/
theorem c4_model_lookup :
    (Model.members.map ModelConfig.model_name).Nodup ∧
    (∀ m ∈ Model.members, Model.from_name m.model_name = Except.ok m) ∧
    (∀ name : String, (∀ m ∈ Model.members, m.model_name ≠ name) →
      Model.from_name name = Except.error (unknownModelMsg name)) := by
  refine ⟨by decide, ?_, ?_⟩
  · intro m hm
    fin_cases hm <;> rfl
  · intro name h
    unfold Model.from_name
    have hnone : Model.members.find? (fun model => model.model_name == name) = none := by
      rw [List.find?_eq_none]
      intro m hm
      simp [h m hm]
    rw [hnone]

/-- Witness for C4: looking up a member name returns that member, and an
unknown name gives the explicit `ValueError` message. -/
theorem c4_model_lookup_witness :
    Model.from_name "gemini-2.5-pro" = Except.ok Model.G_2_5_PRO ∧
    Model.from_name "gpt-4" = Except.error (unknownModelMsg "gpt-4") :=
  ⟨c4_model_lookup.2.1 Model.G_2_5_PRO (by simp [Model.members]),
   c4_model_lookup.2.2 "gpt-4" (by decide)⟩

/-! ### Fixed header maps (`gemini_client/enums.py`, `Headers`) -/

/-- Embeds `Headers.GEMINI`, the fixed header map for generate requests. -/
def Headers.GEMINI : List (String × String) :=
  [("Content-Type", "application/x-www-form-urlencoded;charset=utf-8"),
   ("Host", "gemini.google.com"),
   ("Origin", "https://gemini.google.com"),
   ("Referer", "https://gemini.google.com/"),
   ("X-Same-Domain", "1")]

/-- Embeds `Headers.ROTATE_COOKIES`, the fixed header map for the
rotate-cookies request. -/
def Headers.ROTATE_COOKIES : List (String × String) :=
  [("Content-Type", "application/json")]

/-- Embeds `Headers.UPLOAD`, the fixed header map for uploads. -/
def Headers.UPLOAD : List (String × String) :=
  [("Push-ID", "feeds/mcudyrk2a4khkz")]

/-- Dictionary lookup in an embedded header map. -/
def headerValue (headers : List (String × String)) (key : String) : Option String :=
  (headers.find? (fun h => h.1 == key)).map Prod.snd

/-- C7: the generate header map carries `X-Same-Domain: 1` and a
Content-Type declaring URL-form encoding (it extends
`application/x-www-form-urlencoded`), the rotate-cookies header map
declares `application/json`, and the two Content-Types are distinct. -/
theorem c7_header_encodings :
    headerValue Headers.GEMINI "X-Same-Domain" = some "1" ∧
    headerValue Headers.GEMINI "Content-Type" =
      some "application/x-www-form-urlencoded;charset=utf-8" ∧
    (∃ rest : String, "application/x-www-form-urlencoded;charset=utf-8" =
      "application/x-www-form-urlencoded" ++ rest) ∧
    headerValue Headers.ROTATE_COOKIES "Content-Type" = some "application/json" ∧
    headerValue Headers.GEMINI "Content-Type" ≠
      headerValue Headers.ROTATE_COOKIES "Content-Type" :=
  ⟨rfl, rfl, ⟨";charset=utf-8", rfl⟩, rfl, by decide⟩

/-! ### File upload (`gemini_client/utils.py`, `upload_file`) -/

/-- Argument to `upload_file`: raw bytes, or a path (`str`/`Path`). -/
inductive FileArg where
  | bytesData : List Nat → FileArg
  | pathArg : String → FileArg

/-- First observable action of `upload_file`: either it raises
`FileNotFoundError` (with its message, not wrapped in any other error)
before any network activity, or it proceeds to the network POST carrying
the file content. -/
inductive UploadAction where
  | fileNotFoundError : String → UploadAction
  | networkPost : List Nat → UploadAction
deriving DecidableEq

/-- Embeds the file-handling prelude of `upload_file`: a non-bytes
argument is turned into a `Path` and checked with `is_file()`; failure
raises `FileNotFoundError` before the `try`/`except` block that wraps
network errors, so nothing re-wraps it.  `is_file` and `read_bytes` stand
for the file-system state. -/
def upload_file (file : FileArg) (is_file : String → Bool)
    (read_bytes : String → List Nat) : UploadAction :=
  match file with
  | FileArg.bytesData data => UploadAction.networkPost data
  | FileArg.pathArg p =>
      if is_file p then UploadAction.networkPost (read_bytes p)
      else UploadAction.fileNotFoundError ("File not found at path: " ++ p)

/-- C8: for every non-bytes argument whose path is not an existing regular
file, `upload_file` raises `FileNotFoundError` (its own message, unwrapped)
as its first action — no network request is issued. -/
theorem c8_upload_missing_file :
    ∀ (p : String) (is_file : String → Bool) (read_bytes : String → List Nat),
      is_file p = false →
      upload_file (FileArg.pathArg p) is_file read_bytes =
        UploadAction.fileNotFoundError ("File not found at path: " ++ p) := by
  intro p isf rd h
  simp [upload_file, h]

/-- Witness for C8 at a concrete missing path. -/
theorem c8_upload_missing_file_witness :
    upload_file (FileArg.pathArg "/missing.png") (fun _ => false) (fun _ => []) =
      UploadAction.fileNotFoundError ("File not found at path: " ++ "/missing.png") :=
  c8_upload_missing_file "/missing.png" (fun _ => false) (fun _ => []) rfl

/-! ### Image filename handling (`gemini_client/images.py`, `Image.save`) -/

def rfindAux (c : Char) : List Char → Nat → Int → Int
  | [], _, acc => acc
  | x :: xs, i, acc => rfindAux c xs (i + 1) (if x = c then (i : Int) else acc)

/-- Embeds Python `str.rfind` for a single character: the highest index at
which `c` occurs in `p`, or `-1` if it does not occur. -/
def rfind (p : List Char) (c : Char) : Int :=
  rfindAux c p 0 (-1)

/-- Embeds CPython `posixpath.splitext` (`genericpath._splitext` with
separator `/` and extension separator `.`): when the last dot lies after
the last slash and some character strictly between them is not a dot, split
at that last dot; otherwise the extension is empty. -/
def splitext (p : List Char) : List Char × List Char :=
  let sepIndex := rfind p '/'
  let dotIndex := rfind p '.'
  if sepIndex < dotIndex then
    let mid := (p.drop (sepIndex + 1).toNat).take (dotIndex.toNat - (sepIndex + 1).toNat)
    if mid.any (fun ch => ch ≠ '.') then
      (p.take dotIndex.toNat, p.drop dotIndex.toNat)
    else (p, [])
  else (p, [])

/-- Embeds the Python slice `s[:k]` for an `Int` bound `k`: a negative
bound counts from the end and clamps at zero. -/
def pySliceTo (s : List Char) (k : Int) : List Char :=
  if 0 ≤ k then s.take k.toNat else s.take (s.length - (-k).toNat)

/-- Embeds the length-validation step of `Image.save`: with `max_len = 255`,
a longer filename is rebuilt as `name[:max_len - len(ext) - 1] + ext` where
`name, ext = os.path.splitext(filename)`. -/
def truncate_filename (filename : List Char) : List Char :=
  if 255 < filename.length then
    pySliceTo (splitext filename).1 (255 - ((splitext filename).2.length : Int) - 1) ++
      (splitext filename).2
  else filename

/-- Character class of the sanitizing regex `[<>:"/\|?*]` in `Image.save`.
Inside the class `\|` is an escaped pipe, so the class contains the pipe
but not the backslash. -/
def invalidFilenameChars : List Char :=
  ['<', '>', ':', '"', '/', '|', '?', '*']

/-- Embeds `re.sub(r'[<>:"/\|?*]', '_', base_filename)`. -/
def sanitizeFilename (s : List Char) : List Char :=
  s.map (fun ch => if ch ∈ invalidFilenameChars then '_' else ch)

/-- Embeds the URL-derived filename of `Image.save`: the sanitized basename
if non-empty, else the random `image_NNNN.jpg` name (`random_name`). -/
def derived_filename (base_filename random_name : List Char) : List Char :=
  let safe_filename := sanitizeFilename base_filename
  if 0 < safe_filename.length then safe_filename else random_name

/-- Outcome of the filename phase of `Image.save`: either the save is
skipped (the method returns `None`) or it proceeds with a filename. -/
inductive SaveFilename where
  | skipped : SaveFilename
  | saveAs : List Char → SaveFilename
deriving DecidableEq

/-- Embeds the filename phase of `Image.save`. `filename` is the caller
argument (`if not filename` also treats the empty string as absent);
`base_filename` is `os.path.basename(unquote(urlparse(url).path))`;
`path_ok` records whether `Path(filename)` raised `OSError`/`ValueError`;
on such a failure the save is skipped when `skip_invalid_filename` is set,
and otherwise a fresh random fallback name is used without truncation. -/
def resolve_save_filename (filename : Option (List Char)) (base_filename : List Char)
    (random_name fallback_name : List Char) (path_ok skip_invalid_filename : Bool) :
    SaveFilename :=
  let f0 := match filename with
    | none => derived_filename base_filename random_name
    | some f => if f.length = 0 then derived_filename base_filename random_name else f
  if path_ok then SaveFilename.saveAs (truncate_filename f0)
  else if skip_invalid_filename then SaveFilename.skipped
  else SaveFilename.saveAs fallback_name

set_option maxRecDepth 100000 in
/-- C5 counterexample: a 512-character filename whose extension part is 511
characters long.  `truncate_filename` keeps the whole extension and drops
the stem, so the result still has 511 characters — more than the
filesystem-safe maximum of 255 the claim promises. -/
theorem c5_counterexample :
    ('a' :: '.' :: List.replicate 510 'b').length = 512 ∧
    255 < (truncate_filename ('a' :: '.' :: List.replicate 510 'b')).length ∧
    (truncate_filename ('a' :: '.' :: List.replicate 510 'b')).length = 511 := by
  refine ⟨by simp, ?_, ?_⟩ <;> decide

/-- C5 (amended): for every over-long filename whose `splitext` extension
has at most 254 characters (so the truncation budget
`max_len - len(ext) - 1` is non-negative), the truncated filename has at
most 255 characters and still ends in the original extension. -/
theorem c5_truncate_preserves_ext :
    ∀ f : List Char, 255 < f.length → (splitext f).2.length ≤ 254 →
      (truncate_filename f).length ≤ 255 ∧
      ∃ stem : List Char, truncate_filename f = stem ++ (splitext f).2 := by
  intro f hlen hext
  unfold truncate_filename
  rw [if_pos hlen]
  refine ⟨?_, ⟨pySliceTo (splitext f).1 (255 - ((splitext f).2.length : Int) - 1), rfl⟩⟩
  have hk : (0 : Int) ≤ 255 - ((splitext f).2.length : Int) - 1 := by
    have : ((splitext f).2.length : Int) ≤ 254 := by exact_mod_cast hext
    omega
  have h1 : (pySliceTo (splitext f).1 (255 - ((splitext f).2.length : Int) - 1)).length ≤
      (255 - ((splitext f).2.length : Int) - 1).toNat := by
    unfold pySliceTo
    rw [if_pos hk]
    exact (List.length_take _ _).trans_le (Nat.min_le_left _ _)
  rw [List.length_append]
  omega

set_option maxRecDepth 100000 in
/-- Witness for C5 (amended) at a 260-character filename with a short
extension. -/
theorem c5_truncate_preserves_ext_witness :
    (truncate_filename (List.replicate 256 'a' ++ ['.', 'p', 'n', 'g'])).length ≤ 255 ∧
    ∃ stem : List Char,
      truncate_filename (List.replicate 256 'a' ++ ['.', 'p', 'n', 'g']) =
        stem ++ (splitext (List.replicate 256 'a' ++ ['.', 'p', 'n', 'g'])).2 :=
  c5_truncate_preserves_ext _ (by decide) (by decide)

/-- C6 counterexample: a backslash in the derived basename survives
sanitization unchanged (the regex class `[<>:"/\|?*]` escapes the pipe,
not the backslash), so not every claimed filesystem-unsafe character is
replaced by an underscore. -/
theorem c6_counterexample :
    sanitizeFilename ['a', '\\', 'b'] = ['a', '\\', 'b'] ∧
    '\\' ∈ sanitizeFilename ['a', '\\', 'b'] ∧ ('\\' : Char) ≠ '_' := by
  refine ⟨?_, ?_, ?_⟩ <;> decide

/-- C6 (amended): sanitization replaces exactly the characters
`< > : " / | ? *` (not the backslash) by underscores, character for
character; the derived filename is the sanitized basename when non-empty;
and when filename validation fails irrecoverably with skipping enabled the
save is skipped (returns `None`) instead of producing a path. -/
theorem c6_sanitize_and_skip :
    (∀ s : List Char, ∀ ch ∈ sanitizeFilename s, ch ∉ invalidFilenameChars) ∧
    (∀ s : List Char, (sanitizeFilename s).length = s.length) ∧
    (∀ (base_filename random_name fallback_name : List Char) (skip : Bool),
      0 < (sanitizeFilename base_filename).length →
      resolve_save_filename none base_filename random_name fallback_name true skip =
        SaveFilename.saveAs (truncate_filename (sanitizeFilename base_filename))) ∧
    (∀ (filename : Option (List Char)) (base_filename random_name fallback_name : List Char),
      resolve_save_filename filename base_filename random_name fallback_name false true =
        SaveFilename.skipped) := by
  refine ⟨?_, fun s => List.length_map _ _, ?_, ?_⟩
  · intro s ch hch
    obtain ⟨x, hx, rfl⟩ := List.mem_map.mp hch
    by_cases hxi : x ∈ invalidFilenameChars
    · rw [if_pos hxi]; decide
    · rw [if_neg hxi]; exact hxi
  · intro base_filename random_name fallback_name skip h
    simp [resolve_save_filename, derived_filename, h]
  · intro filename base_filename random_name fallback_name
    cases filename <;> simp [resolve_save_filename]

/-- Witness for C6 (amended): a basename containing `?` is sanitized and
used, and an irrecoverable filename with skipping enabled yields a skip. -/
theorem c6_sanitize_and_skip_witness :
    resolve_save_filename none ['a', '?', 'b', '.', 'p', 'n', 'g'] ['r', '.', 'j', 'p', 'g']
        ['s', '.', 'j', 'p', 'g'] true true =
      SaveFilename.saveAs (truncate_filename (sanitizeFilename ['a', '?', 'b', '.', 'p', 'n', 'g'])) :=
  c6_sanitize_and_skip.2.2.1 ['a', '?', 'b', '.', 'p', 'n', 'g'] ['r', '.', 'j', 'p', 'g']
    ['s', '.', 'j', 'p', 'g'] true (by decide)

/-! ### Generated images (`gemini_client/images.py`, `GeneratedImage`) -/

/-- Embeds Python `str.lower` (character-wise lower-casing). -/
def pyLower (s : String) : String :=
  ⟨s.data.map Char.toLower⟩

/-- Message of the `ValueError` raised by `GeneratedImage.validate_cookies`. -/
def cookiesValidationMsg : String :=
  "GeneratedImage requires a dictionary of cookies from the client."

/-- Embeds `GeneratedImage.validate_cookies`: `if not v or not isinstance(v, dict)`
raises `ValueError`.  In the typed embedding `v` is always a dictionary
(an association list), so the live check is emptiness (an empty dict is
falsy). -/
def validate_cookies (v : List (String × String)) :
    Except String (List (String × String)) :=
  if v.isEmpty then Except.error cookiesValidationMsg else Except.ok v

/-- Embeds the `GeneratedImage` pydantic model: the `url` field of `Image`
plus the required `cookies` dictionary. -/
structure GeneratedImage where
  url : String
  cookies : List (String × String)
deriving DecidableEq

/-- Pydantic construction of a `GeneratedImage`: the `field_validator` for
`cookies` runs before the object exists; a `ValueError` aborts
construction. -/
def GeneratedImage.construct (url : String) (cookies : List (String × String)) :
    Except String GeneratedImage :=
  match validate_cookies cookies with
  | Except.ok v => Except.ok ⟨url, v⟩
  | Except.error e => Except.error e

/-- Download request issued by `Image.save`: the URL, the cookies handed to
the HTTP session, and the filename keyword argument. -/
structure DownloadRequest where
  req_url : String
  req_cookies : Option (List (String × String))
  req_filename : Option String

/-- Embeds the default-filename computation of `GeneratedImage.save`:
extension `.jpg` if the lower-cased URL contains `.jpg` else `.png`;
`url_part` is the last `/`-separated component of the URL cut to 10
characters; prefixed by the timestamp. -/
def GeneratedImage.default_filename (g : GeneratedImage) (timestamp : String) : String :=
  let ext := if 1 < ((pyLower g.url).splitOn ".jpg").length then ".jpg" else ".png"
  let url_part : String := ⟨((g.url.splitOn "/").getLastD "").data.take 10⟩
  timestamp ++ "_" ++ url_part ++ ext

/-- Embeds `GeneratedImage.save`: if no `filename` keyword is given the
default one is computed, and the parent `Image.save` is called with
`cookies=self.cookies`. -/
def GeneratedImage.save_call (g : GeneratedImage) (filename : Option String)
    (timestamp : String) : DownloadRequest :=
  { req_url := g.url,
    req_cookies := some g.cookies,
    req_filename := some (match filename with
      | some f => f
      | none => g.default_filename timestamp) }

/-- C10: constructing a `GeneratedImage` with an empty cookies dictionary
fails with the validation `ValueError`; every successfully constructed
`GeneratedImage` carries exactly the non-empty cookies it was given; and
`GeneratedImage.save` always passes exactly those cookies to the underlying
image download. -/
theorem c10_generated_image_cookies :
    (∀ url : String, GeneratedImage.construct url [] = Except.error cookiesValidationMsg) ∧
    (∀ (url : String) (cookies : List (String × String)) (g : GeneratedImage),
      GeneratedImage.construct url cookies = Except.ok g →
      g.cookies = cookies ∧ g.cookies ≠ []) ∧
    (∀ (g : GeneratedImage) (filename : Option String) (timestamp : String),
      (g.save_call filename timestamp).req_cookies = some g.cookies) := by
  refine ⟨fun _ => rfl, ?_, fun _ _ _ => rfl⟩
  intro url cookies g h
  unfold GeneratedImage.construct validate_cookies at h
  by_cases hc : cookies.isEmpty
  · rw [if_pos hc] at h
    exact absurd h (by simp)
  · rw [if_neg hc] at h
    have h' : (Except.ok (⟨url, cookies⟩ : GeneratedImage) : Except String GeneratedImage) =
        Except.ok g := h
    have hg : g = ⟨url, cookies⟩ := (Except.ok.inj h').symm
    subst hg
    refine ⟨rfl, ?_⟩
    simpa [List.isEmpty_iff] using hc

/-- Witness for C10 at a concrete constructed image. -/
theorem c10_generated_image_cookies_witness :
    (⟨"https://img.example/x.png", [("__Secure-1PSID", "A")]⟩ : GeneratedImage).cookies =
      [("__Secure-1PSID", "A")] ∧
    (⟨"https://img.example/x.png", [("__Secure-1PSID", "A")]⟩ : GeneratedImage).cookies ≠ [] :=
  c10_generated_image_cookies.2.1 "https://img.example/x.png" [("__Secure-1PSID", "A")] _ rfl

/-! ### Session engine auth-retry (`core.py`, modelled from the spec) -/

/-- Modelled from the spec: classification of a generate-endpoint response
as seen by `SessionEngine.send` of `core.py` (absent from the source tree) —
an authentication rejection, a success with a body, or a non-auth transport
failure (spec section 4.5, steps 3-5). -/
inductive GenerateResponse where
  | authRejected : GenerateResponse
  | success : String → GenerateResponse
  | transportFail : GenerateResponse

/-- Modelled from the spec: outcome of one rotate-credentials call
(spec section 4.1: rejection is an `AuthError`). -/
inductive RotateOutcome where
  | accepted : RotateOutcome
  | rejected : RotateOutcome

/-- Modelled from the spec: how `SessionEngine.send` terminates. -/
inductive SendOutcome where
  | result : String → SendOutcome
  | authError : SendOutcome
  | transportError : SendOutcome
deriving DecidableEq

/-- Modelled from the spec: `SessionEngine.send` of `core.py` (absent from
the source tree), spec section 4.5 steps 3-5.  `responses n` is the fixture
answering the n-th generate call; the result records the outcome, the list
of generate-request payloads issued in order (each built from the same
prompt), and the number of rotation attempts.  An auth rejection triggers
one rotation and one retry of the same request; a second auth rejection,
or a rejected rotation, is a fatal `AuthError` with no further generate
call. -/
def sessionSend (prompt : String) (responses : Nat → GenerateResponse)
    (rotation : RotateOutcome) : SendOutcome × List String × Nat :=
  match responses 0 with
  | GenerateResponse.success body => (SendOutcome.result body, [prompt], 0)
  | GenerateResponse.transportFail => (SendOutcome.transportError, [prompt], 0)
  | GenerateResponse.authRejected =>
    match rotation with
    | RotateOutcome.rejected => (SendOutcome.authError, [prompt], 1)
    | RotateOutcome.accepted =>
      match responses 1 with
      | GenerateResponse.success body => (SendOutcome.result body, [prompt, prompt], 1)
      | GenerateResponse.transportFail => (SendOutcome.transportError, [prompt, prompt], 1)
      | GenerateResponse.authRejected => (SendOutcome.authError, [prompt, prompt], 1)

/-- C2: when the first generate response is an auth rejection,
`SessionEngine.send` rotates exactly once and retries the same request
exactly once (two generate calls total, both carrying the same prompt);
two consecutive auth rejections end in `AuthError` after exactly one
rotation and exactly two generate calls (never a third); and a rejected
rotation is likewise fatal after one rotation attempt.  Holds for every
prompt and fixture stream. -/
theorem c2_send_auth_retry_bound :
    ∀ (prompt : String) (responses : Nat → GenerateResponse),
      responses 0 = GenerateResponse.authRejected →
      ((responses 1 = GenerateResponse.authRejected →
        sessionSend prompt responses RotateOutcome.accepted =
          (SendOutcome.authError, [prompt, prompt], 1)) ∧
       (sessionSend prompt responses RotateOutcome.accepted).2.1.length ≤ 2 ∧
       (sessionSend prompt responses RotateOutcome.accepted).2.2 = 1 ∧
       (∀ r ∈ (sessionSend prompt responses RotateOutcome.accepted).2.1, r = prompt) ∧
       sessionSend prompt responses RotateOutcome.rejected =
         (SendOutcome.authError, [prompt], 1)) := by
  intro prompt responses h0
  refine ⟨?_, ?_, ?_, ?_, ?_⟩
  · intro h1
    simp [sessionSend, h0, h1]
  · cases h1 : responses 1 <;> simp [sessionSend, h0, h1]
  · cases h1 : responses 1 <;> simp [sessionSend, h0, h1]
  · cases h1 : responses 1 <;> simp [sessionSend, h0, h1]
  · simp [sessionSend, h0]

/-- Witness for C2 at the all-auth-rejection fixture stream. -/
theorem c2_send_auth_retry_bound_witness :
    sessionSend "hello" (fun _ => GenerateResponse.authRejected) RotateOutcome.accepted =
      (SendOutcome.authError, ["hello", "hello"], 1) :=
  (c2_send_auth_retry_bound "hello" (fun _ => GenerateResponse.authRejected) rfl).1 rfl
